import Mathlib

/-!
Shallow embedding of the incident-management backend's resource allocation
and dispatch-lifecycle engine (src/backend/app.py, src/backend/database.py).

Modelling decisions, with their justification in the source:

* Departments and incidents are rows of the sqlite tables `fire_departments`
  and `incidents` (database.py, create_tables).  Integer columns are `Int`,
  float columns (`latitude`, `longitude`) are `ℚ`; text columns that the
  engine never branches on are `String`.  `latitude`/`longitude` of a
  department are nullable (`Option ℚ`), exactly as in the schema and as
  handled by `update_incident_status` (app.py lines 845-849, the
  `fd_lat is None or fd_lon is None: continue` guard).

* The haversine distance (app.py lines 851-865) is computed with
  floating-point trigonometry.  Every claim treated here is independent of
  the concrete distance values, so the nearest-department scan is verified
  for an arbitrary distance function `d : ℚ → ℚ → ℚ → ℚ → ℚ`
  (`d incLat incLon fdLat fdLon`), mirroring the loop's strict `<` update
  that keeps the earliest-scanned department on ties.

* The AI allocation response (`call_ai_resource_allocation`'s `data`) is an
  arbitrary input to `report_incident_with_files`: the backend applies it
  without validating amounts or department ids (app.py lines 369-397), so it
  is modelled as arbitrary data, including negative amounts and unknown ids.

* In `report_incident_with_files`, the incident insert is committed at once
  (app.py line 288), but the department `UPDATE`s (lines 385-396) are only
  committed inside the `if dispatched_total > 0` branch (line 409); when
  `dispatched_total <= 0` the connection is closed at request teardown
  without a commit, so those updates are rolled back.  The model therefore
  keeps the old department list when the total is not positive.

* File attachments and the fake-image gate are out of scope (they do not
  touch capacities or any field a claim mentions), so requests carry no
  files and `saved_files` is always empty.
-/

namespace IncidentPlatform

/-- Distance oracle standing for the float haversine formula:
`d incLat incLon fdLat fdLon` is the computed distance in km. -/
abbrev DistFn : Type := ℚ → ℚ → ℚ → ℚ → ℚ

/-- Row of the `fire_departments` table.  `available` is the responder-count
column (named `available_staff` in app.py's SQL and `available_responders`
in database.py's schema; both stand for the same quantity per spec §6). -/
structure FireDept where
  id : Nat
  name : String
  city : Option String
  latitude : Option ℚ
  longitude : Option ℚ
  available : Int
  deriving Repr, DecidableEq

/-- The three incident statuses accepted by `update_incident_status`
(`allowed_statuses = {"open", "in_process", "resolved"}`). -/
inductive Status where
  | open_
  | inProcess
  | resolved
  deriving Repr, DecidableEq

/-- Row of the `incidents` table (database.py lines 103-117). -/
structure Incident where
  id : Nat
  type : String
  description : Option String
  latitude : ℚ
  longitude : ℚ
  status : Status
  severity_score : Int
  priority_score : ℚ
  priority_explanation : Option String
  dispatched_responders : Int
  created_at : Nat
  deriving Repr, DecidableEq

/-- One assignment object inside the AI allocation response
(app.py lines 376-383): `fire_department_id = none` models an id string
that `int()` cannot parse (the code then `continue`s); the inner
`Option Int` of `responders_dispatched` models an absent / null value,
which `assignment.get(..., 0) or 0` collapses to 0. -/
structure RespAssignment where
  fire_department_id : Option Int
  responders_dispatched : Option Int
  deriving Repr, DecidableEq

/-- One entry of the response's `incidents` list; `id` is the entry's id
already passed through `str(...)` (`none` models an absent id, which can
never equal `str(incident_id)`). -/
structure AllocIncident where
  id : Option String
  assignments : List RespAssignment
  deriving Repr, DecidableEq

/-- The `data` body of a successful AI resource-allocation call. -/
structure AllocData where
  incidents : List AllocIncident
  deriving Repr, DecidableEq

/-- The parsed form fields of a POST /api/incidents/report request.
For `latitude`/`longitude`, the outer `Option` is field presence and the
inner one is "parses as a float"; for `severity_raw`, `none` models a
missing or blank field and `some none` a non-integer string (both default
to severity 1, app.py lines 271-278). -/
structure ReportRequest where
  type : Option String
  latitude : Option (Option ℚ)
  longitude : Option (Option ℚ)
  description : Option String
  severity_raw : Option (Option Int)
  deriving Repr, DecidableEq

/-- The JSON body returned by `report_incident_with_files`
(app.py lines 411-422): exactly these fields, nothing else. -/
structure ReportResponse where
  incident_id : Nat
  saved_files : List String
  severity_score : Int
  resource_allocation : Option AllocData
  resource_allocation_error : Option String
  deriving Repr, DecidableEq

/-- The database state the two endpoints read and write, plus the
autoincrement counter and a clock supplying `created_at`. -/
structure St where
  depts : List FireDept
  incidents : List Incident
  nextId : Nat
  clock : Nat
  deriving Repr, DecidableEq

/-- Rejection cases of `report_incident_with_files` input validation
(app.py lines 262-269). -/
inductive ReportError where
  | missingFields
  | nonNumericCoords
  deriving Repr, DecidableEq

/-- Rejection cases of `update_incident_status` (app.py lines 815-829). -/
inductive StatusError where
  | invalidStatus
  | notFound
  deriving Repr, DecidableEq

/-- Python truthiness test `not inc_type`: the field is missing or the
empty string. -/
def typeMissing : Option String → Bool
  | none => true
  | some s => s = ""

/-- The capacity-decrement SQL of app.py lines 385-396:
`SET available_staff = CASE WHEN available_staff >= ? THEN
available_staff - ? ELSE 0 END`. -/
def reserveClamp (avail amt : Int) : Int :=
  if amt ≤ avail then avail - amt else 0

/-- Effect of one response assignment on the department table: rows whose
id equals the parsed `fire_department_id` get the clamped decrement; an
unparseable id leaves the table untouched (the loop `continue`s). -/
def applyAssignment (depts : List FireDept) (a : RespAssignment) : List FireDept :=
  match a.fire_department_id with
  | none => depts
  | some fdId =>
      depts.map fun fd =>
        if (fd.id : Int) = fdId then
          { fd with available := reserveClamp fd.available (a.responders_dispatched.getD 0) }
        else fd

/-- The amount a response assignment adds to `dispatched_total`
(app.py line 397): the full requested amount whenever the id parses. -/
def assignmentAmount (a : RespAssignment) : Int :=
  match a.fire_department_id with
  | none => 0
  | some _ => a.responders_dispatched.getD 0

/-- The assignment loop of app.py lines 376-397, threading the department
table and the running `dispatched_total`. -/
def applyAssignments (depts : List FireDept) (asgs : List RespAssignment) :
    List FireDept × Int :=
  asgs.foldl (fun acc a => (applyAssignment acc.1 a, acc.2 + assignmentAmount a)) (depts, 0)

/-- The assignments of every response entry whose `id` matches
`str(incident_id)` (the `continue` filter of app.py lines 372-375),
concatenated in response order. -/
def matchingAssignments (incId : Nat) (data : AllocData) : List RespAssignment :=
  (data.incidents.filter fun e => e.id = some (toString incId)).flatMap
    fun e => e.assignments

/-- Sum of the requested amounts over assignments with a parseable
department id: what the code's `dispatched_total` works out to be. -/
def requestedTotal (asgs : List RespAssignment) : Int :=
  (asgs.map assignmentAmount).sum

/-- Placeholder for the error text forwarded when the allocation call
fails; the engine never inspects it. -/
def allocFailedMsg : String := "allocation failed"

/-- Severity parsing of app.py lines 271-278: a parsed integer is taken
as-is (no range or sign check); a missing, blank or non-integer value
defaults to 1. -/
def reqSeverity (req : ReportRequest) : Int :=
  match req.severity_raw with
  | some (some k) => k
  | _ => 1

/-- The row inserted by the `INSERT INTO incidents` of app.py lines
281-287, with the schema defaults of database.py lines 103-117. -/
def newIncident (s : St) (req : ReportRequest) (lat lon : ℚ) : Incident :=
  { id := s.nextId, type := (req.type.getD ""), description := req.description
    latitude := lat, longitude := lon, status := .open_
    severity_score := reqSeverity req, priority_score := 0
    priority_explanation := none, dispatched_responders := 0
    created_at := s.clock }

/-- POST /api/incidents/report (`report_incident_with_files`), with the AI
allocation call's outcome passed in: `alloc = none` stands for a failed
call (`success` false or `data` absent), `some data` for a successful one.
On a 400 rejection nothing is written, so only the error is returned. -/
def reportIncident (s : St) (req : ReportRequest) (alloc : Option AllocData) :
    Except ReportError (St × ReportResponse) :=
  if typeMissing req.type || req.latitude.isNone || req.longitude.isNone then
    .error .missingFields
  else
    match req.latitude.getD none, req.longitude.getD none with
    | some lat, some lon =>
        let severity : Int := reqSeverity req
        let incId := s.nextId
        let inc0 : Incident := newIncident s req lat lon
        match alloc with
        | none =>
            .ok ({ s with incidents := s.incidents ++ [inc0]
                          nextId := incId + 1, clock := s.clock + 1 },
                 { incident_id := incId, saved_files := []
                   severity_score := severity, resource_allocation := none
                   resource_allocation_error := some allocFailedMsg })
        | some data =>
            let step := applyAssignments s.depts (matchingAssignments incId data)
            let total := step.2
            if 0 < total then
              .ok ({ s with depts := step.1
                            incidents := s.incidents ++
                              [{ inc0 with status := .inProcess
                                           dispatched_responders := total }]
                            nextId := incId + 1, clock := s.clock + 1 },
                   { incident_id := incId, saved_files := []
                     severity_score := severity, resource_allocation := some data
                     resource_allocation_error := none })
            else
              .ok ({ s with incidents := s.incidents ++ [inc0]
                            nextId := incId + 1, clock := s.clock + 1 },
                   { incident_id := incId, saved_files := []
                     severity_score := severity, resource_allocation := some data
                     resource_allocation_error := none })
    | _, _ => .error .nonNumericCoords

def statusOpenStr : String := "open"
def statusInProcessStr : String := "in_process"
def statusResolvedStr : String := "resolved"

/-- Membership test `new_status in allowed_statuses` plus the mapping from
the stored text to the status value. -/
def parseStatus (raw : Option String) : Option Status :=
  match raw with
  | none => none
  | some s =>
      if s = statusOpenStr then some .open_
      else if s = statusInProcessStr then some .inProcess
      else if s = statusResolvedStr then some .resolved
      else none

/-- The nearest-department scan of app.py lines 842-869: walk the rows,
skip those with a null coordinate, keep the strictly closest seen so far
(so the earliest row wins ties), remembering its distance. -/
def nearestAux (d : DistFn) (ilat ilon : ℚ) (acc : Option (FireDept × ℚ)) :
    List FireDept → Option (FireDept × ℚ)
  | [] => acc
  | fd :: rest =>
      match fd.latitude, fd.longitude with
      | some flat, some flon =>
          match acc with
          | none => nearestAux d ilat ilon (some (fd, d ilat ilon flat flon)) rest
          | some (bfd, bdist) =>
              if d ilat ilon flat flon < bdist then
                nearestAux d ilat ilon (some (fd, d ilat ilon flat flon)) rest
              else
                nearestAux d ilat ilon (some (bfd, bdist)) rest
      | none, _ => nearestAux d ilat ilon acc rest
      | some _, none => nearestAux d ilat ilon acc rest

/-- The `nearest_fd` found by the scan, if any department has coordinates. -/
def nearestFd (d : DistFn) (ilat ilon : ℚ) (depts : List FireDept) :
    Option FireDept :=
  (nearestAux d ilat ilon none depts).map Prod.fst

/-- `UPDATE fire_departments SET available_staff = available_staff + ?
WHERE id = ?` (app.py lines 874-881). -/
def creditDept (fdId : Nat) (amt : Int) (depts : List FireDept) : List FireDept :=
  depts.map fun fd =>
    if fd.id = fdId then { fd with available := fd.available + amt } else fd

/-- `UPDATE incidents SET dispatched_responders = 0 WHERE id = ?`
(app.py lines 883-890). -/
def resetDispatched (incId : Nat) (l : List Incident) : List Incident :=
  l.map fun i =>
    if i.id = incId then { i with dispatched_responders := 0 } else i

/-- `UPDATE incidents SET status = ? WHERE id = ?` (app.py lines 893-900). -/
def setStatus (incId : Nat) (ns : Status) (l : List Incident) : List Incident :=
  l.map fun i => if i.id = incId then { i with status := ns } else i

/-- Step 3 of `update_incident_status` (app.py lines 839-890): when the
incident leaves `in_process` with responders dispatched and a nearest
department exists, credit that department and zero the incident's
`dispatched_responders`; in every other case touch nothing. -/
def reclaimState (d : DistFn) (s : St) (incId : Nat) (row : Incident)
    (newStatus : Status) : St :=
  if row.status = .inProcess ∧ 0 < row.dispatched_responders ∧ newStatus ≠ .inProcess then
    match nearestFd d row.latitude row.longitude s.depts with
    | some nf =>
        { s with depts := creditDept nf.id row.dispatched_responders s.depts
                 incidents := resetDispatched incId s.incidents }
    | none => s
  else s

/-- PUT /api/incidents/(id)/status (`update_incident_status`): validate the
payload, fetch the incident, reclaim to the nearest department when the
incident leaves `in_process` with responders dispatched, then write the new
status and re-read the row. -/
def updateIncidentStatus (d : DistFn) (s : St) (incId : Nat)
    (body : Option String) : Except StatusError (St × Incident) :=
  match parseStatus body with
  | none => .error .invalidStatus
  | some newStatus =>
      match s.incidents.find? (fun i => i.id = incId) with
      | none => .error .notFound
      | some row =>
          let s1 := reclaimState d s incId row newStatus
          let s2 := { s1 with incidents := setStatus incId newStatus s1.incidents }
          match s2.incidents.find? (fun i => i.id = incId) with
          | some updated => .ok (s2, updated)
          | none => .error .notFound

/-- The state after a report request, errors leaving the state unchanged
(a 400 returns before any write). -/
def reportStep (s : St) (req : ReportRequest) (alloc : Option AllocData) : St :=
  match reportIncident s req alloc with
  | .ok (s2, _) => s2
  | .error _ => s

/-- The state after a status-change request, errors leaving the state
unchanged. -/
def statusStep (d : DistFn) (s : St) (incId : Nat) (body : Option String) : St :=
  match updateIncidentStatus d s incId body with
  | .ok (s2, _) => s2
  | .error _ => s

/-- One externally triggered operation: an incident report (with an
arbitrary allocation response) or a status change. -/
inductive Step (d : DistFn) : St → St → Prop
  | report (s : St) (req : ReportRequest) (alloc : Option AllocData) :
      Step d s (reportStep s req alloc)
  | status (s : St) (incId : Nat) (body : Option String) :
      Step d s (statusStep d s incId body)

/-- Every department's available responder count is non-negative. -/
def deptsNonneg (s : St) : Prop :=
  ∀ fd ∈ s.depts, 0 ≤ fd.available

instance (s : St) : Decidable (deptsNonneg s) := by
  unfold deptsNonneg; infer_instance

/-- Total amount actually subtracted from the capacities between two
snapshots of the department table (same departments, same order). -/
def subtractedTotal (before after : List FireDept) : Int :=
  ((before.zip after).map fun p => p.1.available - p.2.available).sum

/-- Every integer datum carried by the report response body: the incident
id, the severity score, and the ids and amounts inside the echoed
allocation data.  Used to express "the response contains a field equal
to v". -/
def responseNumbers (r : ReportResponse) : List Int :=
  (r.incident_id : Int) :: r.severity_score ::
    (match r.resource_allocation with
     | none => []
     | some data =>
         data.incidents.flatMap fun e =>
           e.assignments.flatMap fun a =>
             [a.fire_department_id.getD 0, a.responders_dispatched.getD 0])

/-- Constant distance oracle used to instantiate the verified statements
on concrete states. -/
def dist0 : DistFn := fun _ _ _ _ => 0

def fireStr : String := "fire"

def oneStr : String := "1"

def nameA : String := "Feuerwache A"

def nameB : String := "Feuerwache B"

/-- A department with coordinates. -/
def fdCoord (i : Nat) (avail : Int) : FireDept :=
  { id := i, name := nameA, city := none, latitude := some 50
    longitude := some 6, available := avail }

/-- A department whose coordinate columns are NULL. -/
def fdNoCoord (i : Nat) (avail : Int) : FireDept :=
  { id := i, name := nameB, city := none, latitude := none
    longitude := none, available := avail }

/-- A concrete incident row. -/
def mkIncident (i : Nat) (st : Status) (sev disp : Int) : Incident :=
  { id := i, type := fireStr, description := none, latitude := 50
    longitude := 7, status := st, severity_score := sev, priority_score := 0
    priority_explanation := none, dispatched_responders := disp
    created_at := 0 }

/-- A well-formed report request with the given severity value. -/
def mkRequest (sev : Int) : ReportRequest :=
  { type := some fireStr, latitude := some (some 50)
    longitude := some (some 7), description := none
    severity_raw := some (some sev) }

/-- A response assignment with a parseable department id and a present
amount. -/
def asg (fdId amt : Int) : RespAssignment :=
  { fire_department_id := some fdId, responders_dispatched := some amt }

/-- An allocation response with a single assignment for incident "1". -/
def mkAlloc (fdId amt : Int) : AllocData :=
  { incidents := [{ id := some oneStr, assignments := [asg fdId amt] }] }

/-- The state after a fresh report on `stOneDept` scenarios. -/
def stRes (fd : FireDept) (inc : Incident) : St :=
  { depts := [fd], incidents := [inc], nextId := 2, clock := 1 }

/-- The response body of a successful report with a successful allocation
call on `stOneDept` scenarios. -/
def resResp (sev : Int) (data : AllocData) : ReportResponse :=
  { incident_id := 1, saved_files := [], severity_score := sev
    resource_allocation := some data, resource_allocation_error := none }

/-- A report request with an out-of-range latitude and a negative severity
score. -/
def reqC8 : ReportRequest :=
  { type := some fireStr, latitude := some (some 200)
    longitude := some (some 7), description := none
    severity_raw := some (some (-3)) }

/-- The incident the engine creates from `reqC8`. -/
def incC8 : Incident :=
  { id := 1, type := fireStr, description := none, latitude := 200
    longitude := 7, status := .open_, severity_score := -3
    priority_score := 0, priority_explanation := none
    dispatched_responders := 0, created_at := 0 }

/-- A fresh state holding one department and no incidents. -/
def stOneDept (fd : FireDept) : St :=
  { depts := [fd], incidents := [], nextId := 1, clock := 0 }

/-- A state holding one department and one existing incident. -/
def stWith (fd : FireDept) (inc : Incident) : St :=
  { depts := [fd], incidents := [inc], nextId := 2, clock := 0 }

lemma reserveClamp_nonneg (a m : Int) : 0 ≤ reserveClamp a m := by
  unfold reserveClamp
  split <;> omega

lemma applyAssignment_nonneg {depts : List FireDept} {a : RespAssignment}
    (h : ∀ fd ∈ depts, 0 ≤ fd.available) :
    ∀ fd ∈ applyAssignment depts a, 0 ≤ fd.available := by
  unfold applyAssignment
  cases ha : a.fire_department_id with
  | none => exact h
  | some fdId =>
      intro fd hfd
      rcases List.mem_map.mp hfd with ⟨fd0, hfd0, rfl⟩
      by_cases hid : (fd0.id : Int) = fdId
      · simpa [hid] using reserveClamp_nonneg fd0.available (a.responders_dispatched.getD 0)
      · simpa [hid] using h fd0 hfd0

lemma foldl_applyAssignment_nonneg (asgs : List RespAssignment) :
    ∀ depts : List FireDept, (∀ fd ∈ depts, 0 ≤ fd.available) →
      ∀ fd ∈ asgs.foldl applyAssignment depts, 0 ≤ fd.available := by
  induction asgs with
  | nil => intro depts h; simpa using h
  | cons a rest ih =>
      intro depts h
      exact ih _ (applyAssignment_nonneg h)

lemma applyAssignments_aux (asgs : List RespAssignment) :
    ∀ (depts : List FireDept) (t0 : Int),
      asgs.foldl (fun acc a => (applyAssignment acc.1 a, acc.2 + assignmentAmount a))
          (depts, t0)
        = (asgs.foldl applyAssignment depts, t0 + requestedTotal asgs) := by
  induction asgs with
  | nil => intro depts t0; simp [requestedTotal]
  | cons a rest ih =>
      intro depts t0
      simp only [List.foldl_cons]
      rw [ih]
      unfold requestedTotal
      simp only [List.map_cons, List.sum_cons]
      refine Prod.ext rfl ?_
      simp only
      omega

lemma applyAssignments_def (depts : List FireDept) (asgs : List RespAssignment) :
    applyAssignments depts asgs = (asgs.foldl applyAssignment depts, requestedTotal asgs) := by
  unfold applyAssignments
  simpa using applyAssignments_aux asgs depts 0

lemma find_map_id {f : Incident → Incident} (hf : ∀ i, (f i).id = i.id)
    (l : List Incident) (incId : Nat) :
    (l.map f).find? (fun i => i.id = incId)
      = (l.find? (fun i => i.id = incId)).map f := by
  induction l with
  | nil => rfl
  | cons i rest ih =>
      simp only [List.map_cons, List.find?]
      rw [hf i]
      by_cases h : i.id = incId
      · simp [h]
      · simp [h, ih]

lemma find_setStatus (l : List Incident) (incId : Nat) (ns : Status) :
    (setStatus incId ns l).find? (fun i => i.id = incId)
      = (l.find? (fun i => i.id = incId)).map
          (fun i => if i.id = incId then { i with status := ns } else i) := by
  unfold setStatus
  exact find_map_id (fun i => by by_cases h : i.id = incId <;> simp [h]) l incId

lemma find_resetDispatched (l : List Incident) (incId : Nat) :
    (resetDispatched incId l).find? (fun i => i.id = incId)
      = (l.find? (fun i => i.id = incId)).map
          (fun i => if i.id = incId then { i with dispatched_responders := 0 } else i) := by
  unfold resetDispatched
  exact find_map_id (fun i => by by_cases h : i.id = incId <;> simp [h]) l incId

lemma nearestAux_none (d : DistFn) (ilat ilon : ℚ) :
    ∀ l : List FireDept, (∀ fd ∈ l, fd.latitude = none ∨ fd.longitude = none) →
      nearestAux d ilat ilon none l = none := by
  intro l
  induction l with
  | nil => intro _; rfl
  | cons fd rest ih =>
      intro h
      have hfd := h fd (List.mem_cons_self fd rest)
      have hrest : ∀ g ∈ rest, g.latitude = none ∨ g.longitude = none :=
        fun g hg => h g (List.mem_cons_of_mem fd hg)
      cases hla : fd.latitude with
      | none => simp only [nearestAux, hla]; exact ih hrest
      | some a =>
          cases hlo : fd.longitude with
          | none => simp only [nearestAux, hla, hlo]; exact ih hrest
          | some b =>
              rcases hfd with h1 | h2
              · rw [hla] at h1; cases h1
              · rw [hlo] at h2; cases h2

lemma nearestFd_eq_none (d : DistFn) (ilat ilon : ℚ) {depts : List FireDept}
    (h : ∀ fd ∈ depts, fd.latitude = none ∨ fd.longitude = none) :
    nearestFd d ilat ilon depts = none := by
  unfold nearestFd
  rw [nearestAux_none d ilat ilon depts h]
  rfl

lemma nearestAux_spec (d : DistFn) (ilat ilon : ℚ) :
    ∀ (l : List FireDept) (acc : Option (FireDept × ℚ)) (p : FireDept × ℚ),
      nearestAux d ilat ilon acc l = some p →
      (acc = some p ∨
        (p.1 ∈ l ∧ ∃ fl fo, p.1.latitude = some fl ∧ p.1.longitude = some fo ∧
          p.2 = d ilat ilon fl fo)) ∧
      (∀ q, acc = some q → p.2 ≤ q.2) ∧
      (∀ fd ∈ l, ∀ gl go, fd.latitude = some gl → fd.longitude = some go →
        p.2 ≤ d ilat ilon gl go) := by
  intro l
  induction l with
  | nil =>
      intro acc p h
      simp only [nearestAux] at h
      refine ⟨Or.inl h, ?_, by simp⟩
      intro q hq
      rw [h] at hq
      injection hq with hq
      rw [hq]
  | cons fd rest ih =>
      intro acc p h
      cases hla : fd.latitude with
      | none =>
          simp only [nearestAux, hla] at h
          obtain ⟨h1, h2, h3⟩ := ih acc p h
          refine ⟨?_, h2, ?_⟩
          · rcases h1 with h1 | ⟨hm, rest'⟩
            · exact Or.inl h1
            · exact Or.inr ⟨List.mem_cons_of_mem fd hm, rest'⟩
          · intro g hg gl go hgl hgo
            rcases List.mem_cons.mp hg with rfl | hg
            · rw [hla] at hgl; cases hgl
            · exact h3 g hg gl go hgl hgo
      | some flat =>
          cases hlo : fd.longitude with
          | none =>
              simp only [nearestAux, hla, hlo] at h
              obtain ⟨h1, h2, h3⟩ := ih acc p h
              refine ⟨?_, h2, ?_⟩
              · rcases h1 with h1 | ⟨hm, rest'⟩
                · exact Or.inl h1
                · exact Or.inr ⟨List.mem_cons_of_mem fd hm, rest'⟩
              · intro g hg gl go hgl hgo
                rcases List.mem_cons.mp hg with rfl | hg
                · rw [hlo] at hgo; cases hgo
                · exact h3 g hg gl go hgl hgo
          | some flon =>
              cases acc with
              | none =>
                  simp only [nearestAux, hla, hlo] at h
                  obtain ⟨h1, h2, h3⟩ := ih _ p h
                  have hple : p.2 ≤ d ilat ilon flat flon :=
                    h2 (fd, d ilat ilon flat flon) rfl
                  refine ⟨?_, ?_, ?_⟩
                  · rcases h1 with h1 | ⟨hm, rest'⟩
                    · have hps : p = (fd, d ilat ilon flat flon) :=
                        (Option.some.inj h1).symm
                      subst hps
                      exact Or.inr ⟨List.mem_cons_self fd rest, flat, flon, hla, hlo, rfl⟩
                    · exact Or.inr ⟨List.mem_cons_of_mem fd hm, rest'⟩
                  · intro q hq; cases hq
                  · intro g hg gl go hgl hgo
                    rcases List.mem_cons.mp hg with rfl | hg
                    · rw [hla] at hgl; injection hgl with hgl
                      rw [hlo] at hgo; injection hgo with hgo
                      rw [← hgl, ← hgo]
                      exact hple
                    · exact h3 g hg gl go hgl hgo
              | some bp =>
                  rcases bp with ⟨bfd, bdist⟩
                  simp only [nearestAux, hla, hlo] at h
                  by_cases hlt : d ilat ilon flat flon < bdist
                  · rw [if_pos hlt] at h
                    obtain ⟨h1, h2, h3⟩ := ih _ p h
                    have hple : p.2 ≤ d ilat ilon flat flon :=
                      h2 (fd, d ilat ilon flat flon) rfl
                    refine ⟨?_, ?_, ?_⟩
                    · rcases h1 with h1 | ⟨hm, rest'⟩
                      · have hps : p = (fd, d ilat ilon flat flon) :=
                          (Option.some.inj h1).symm
                        subst hps
                        exact Or.inr ⟨List.mem_cons_self fd rest, flat, flon, hla, hlo, rfl⟩
                      · exact Or.inr ⟨List.mem_cons_of_mem fd hm, rest'⟩
                    · intro q hq
                      injection hq with hq
                      rw [← hq]
                      exact le_trans hple (le_of_lt hlt)
                    · intro g hg gl go hgl hgo
                      rcases List.mem_cons.mp hg with rfl | hg
                      · rw [hla] at hgl; injection hgl with hgl
                        rw [hlo] at hgo; injection hgo with hgo
                        rw [← hgl, ← hgo]
                        exact hple
                      · exact h3 g hg gl go hgl hgo
                  · rw [if_neg hlt] at h
                    obtain ⟨h1, h2, h3⟩ := ih _ p h
                    have hple : p.2 ≤ bdist := h2 (bfd, bdist) rfl
                    refine ⟨?_, ?_, ?_⟩
                    · rcases h1 with h1 | ⟨hm, rest'⟩
                      · exact Or.inl h1
                      · exact Or.inr ⟨List.mem_cons_of_mem fd hm, rest'⟩
                    · intro q hq
                      injection hq with hq
                      rw [← hq]
                      exact hple
                    · intro g hg gl go hgl hgo
                      rcases List.mem_cons.mp hg with rfl | hg
                      · rw [hla] at hgl; injection hgl with hgl
                        rw [hlo] at hgo; injection hgo with hgo
                        rw [← hgl, ← hgo]
                        exact le_trans hple (not_lt.mp hlt)
                      · exact h3 g hg gl go hgl hgo

lemma nearestFd_spec {d : DistFn} {ilat ilon : ℚ} {depts : List FireDept} {nf : FireDept}
    (h : nearestFd d ilat ilon depts = some nf) :
    nf ∈ depts ∧ ∃ fl fo, nf.latitude = some fl ∧ nf.longitude = some fo ∧
      ∀ fd ∈ depts, ∀ gl go, fd.latitude = some gl → fd.longitude = some go →
        d ilat ilon fl fo ≤ d ilat ilon gl go := by
  unfold nearestFd at h
  cases hp : nearestAux d ilat ilon none depts with
  | none => rw [hp] at h; cases h
  | some p =>
      rw [hp] at h
      injection h with h
      obtain ⟨h1, _, h3⟩ := nearestAux_spec d ilat ilon depts none p hp
      rcases h1 with h1 | ⟨hm, fl, fo, hfl, hfo, hdk⟩
      · cases h1
      · subst h
        refine ⟨hm, fl, fo, hfl, hfo, ?_⟩
        intro fd hfd gl go hgl hgo
        rw [← hdk]
        exact h3 fd hfd gl go hgl hgo

lemma update_ok_cases {d : DistFn} {s : St} {incId : Nat} {body : Option String}
    {s2 : St} {u : Incident}
    (h : updateIncidentStatus d s incId body = .ok (s2, u)) :
    ∃ ns row, parseStatus body = some ns ∧
      s.incidents.find? (fun i => i.id = incId) = some row ∧ row.id = incId ∧
      (((row.status = .inProcess ∧ 0 < row.dispatched_responders ∧ ns ≠ .inProcess) ∧
        ((∃ nf, nearestFd d row.latitude row.longitude s.depts = some nf ∧
            s2 = { s with depts := creditDept nf.id row.dispatched_responders s.depts
                          incidents := setStatus incId ns (resetDispatched incId s.incidents) } ∧
            u = { row with dispatched_responders := 0, status := ns }) ∨
         (nearestFd d row.latitude row.longitude s.depts = none ∧
            s2 = { s with incidents := setStatus incId ns s.incidents } ∧
            u = { row with status := ns }))) ∨
       (¬(row.status = .inProcess ∧ 0 < row.dispatched_responders ∧ ns ≠ .inProcess) ∧
          s2 = { s with incidents := setStatus incId ns s.incidents } ∧
          u = { row with status := ns })) := by
  unfold updateIncidentStatus at h
  cases hps : parseStatus body with
  | none => rw [hps] at h; simp at h
  | some ns =>
      rw [hps] at h
      cases hrow : s.incidents.find? (fun i => i.id = incId) with
      | none => rw [hrow] at h; simp at h
      | some row =>
          rw [hrow] at h
          simp only at h
          have hrowid : row.id = incId := by
            have := List.find?_some hrow
            simpa using this
          refine ⟨ns, row, rfl, rfl, hrowid, ?_⟩
          by_cases hg : row.status = .inProcess ∧ 0 < row.dispatched_responders ∧
              ns ≠ .inProcess
          · cases hnf : nearestFd d row.latitude row.longitude s.depts with
            | some nf =>
                have hs1 : reclaimState d s incId row ns =
                    { s with depts := creditDept nf.id row.dispatched_responders s.depts
                             incidents := resetDispatched incId s.incidents } := by
                  unfold reclaimState
                  rw [if_pos hg, hnf]
                rw [hs1] at h
                simp only at h
                have hfind : (setStatus incId ns
                      (resetDispatched incId s.incidents)).find? (fun i => i.id = incId)
                    = some { row with dispatched_responders := 0, status := ns } := by
                  rw [find_setStatus, find_resetDispatched, hrow]
                  simp [hrowid]
                rw [hfind] at h
                simp only [Except.ok.injEq, Prod.mk.injEq] at h
                exact Or.inl ⟨hg, Or.inl ⟨nf, rfl, h.1.symm, h.2.symm⟩⟩
            | none =>
                have hs1 : reclaimState d s incId row ns = s := by
                  unfold reclaimState
                  rw [if_pos hg, hnf]
                rw [hs1] at h
                have hfind : (setStatus incId ns s.incidents).find? (fun i => i.id = incId)
                    = some { row with status := ns } := by
                  rw [find_setStatus, hrow]
                  simp [hrowid]
                rw [hfind] at h
                simp only [Except.ok.injEq, Prod.mk.injEq] at h
                exact Or.inl ⟨hg, Or.inr ⟨rfl, h.1.symm, h.2.symm⟩⟩
          · have hs1 : reclaimState d s incId row ns = s := by
              unfold reclaimState
              rw [if_neg hg]
            rw [hs1] at h
            have hfind : (setStatus incId ns s.incidents).find? (fun i => i.id = incId)
                = some { row with status := ns } := by
              rw [find_setStatus, hrow]
              simp [hrowid]
            rw [hfind] at h
            simp only [Except.ok.injEq, Prod.mk.injEq] at h
            exact Or.inr ⟨hg, h.1.symm, h.2.symm⟩

lemma report_ok_cases {s : St} {req : ReportRequest} {alloc : Option AllocData}
    {s2 : St} {r : ReportResponse}
    (h : reportIncident s req alloc = .ok (s2, r)) :
    typeMissing req.type = false ∧
    ∃ lat lon, req.latitude = some (some lat) ∧ req.longitude = some (some lon) ∧
      r = { incident_id := s.nextId, saved_files := []
            severity_score := reqSeverity req, resource_allocation := alloc
            resource_allocation_error :=
              match alloc with | none => some allocFailedMsg | some _ => none } ∧
      ((alloc = none ∧
          s2 = { s with incidents := s.incidents ++ [newIncident s req lat lon]
                        nextId := s.nextId + 1, clock := s.clock + 1 }) ∨
       (∃ data, alloc = some data ∧
          ((0 < requestedTotal (matchingAssignments s.nextId data) ∧
             s2 = { s with
               depts := (matchingAssignments s.nextId data).foldl applyAssignment s.depts
               incidents := s.incidents ++
                 [{ newIncident s req lat lon with
                      status := .inProcess,
                      dispatched_responders :=
                        requestedTotal (matchingAssignments s.nextId data) }]
               nextId := s.nextId + 1, clock := s.clock + 1 }) ∨
           (requestedTotal (matchingAssignments s.nextId data) ≤ 0 ∧
             s2 = { s with incidents := s.incidents ++ [newIncident s req lat lon]
                           nextId := s.nextId + 1, clock := s.clock + 1 })))) := by
  unfold reportIncident at h
  split at h
  · exact absurd h (by simp)
  next hcond =>
    simp only [Bool.or_eq_true, not_or, Bool.not_eq_true] at hcond
    obtain ⟨⟨htm, hlatN⟩, hlonN⟩ := hcond
    obtain ⟨latI, hlat⟩ : ∃ x, req.latitude = some x := by
      cases hq : req.latitude
      · rw [hq] at hlatN; simp at hlatN
      · exact ⟨_, rfl⟩
    obtain ⟨lonI, hlon⟩ : ∃ x, req.longitude = some x := by
      cases hq : req.longitude
      · rw [hq] at hlonN; simp at hlonN
      · exact ⟨_, rfl⟩
    rw [hlat, hlon] at h
    simp only [Option.getD_some] at h
    rcases latI with _ | lat
    · simp at h
    rcases lonI with _ | lon
    · simp at h
    cases alloc with
    | none =>
        simp only [Except.ok.injEq, Prod.mk.injEq] at h
        obtain ⟨hs, hr⟩ := h
        subst hr
        exact ⟨htm, lat, lon, hlat, hlon, rfl, Or.inl ⟨rfl, hs.symm⟩⟩
    | some data =>
        simp only at h
        rw [applyAssignments_def] at h
        simp only at h
        split at h
        next hpos =>
          simp only [Except.ok.injEq, Prod.mk.injEq] at h
          obtain ⟨hs, hr⟩ := h
          subst hr
          exact ⟨htm, lat, lon, hlat, hlon, rfl,
            Or.inr ⟨data, rfl, Or.inl ⟨hpos, hs.symm⟩⟩⟩
        next hneg =>
          simp only [Except.ok.injEq, Prod.mk.injEq] at h
          obtain ⟨hs, hr⟩ := h
          subst hr
          exact ⟨htm, lat, lon, hlat, hlon, rfl,
            Or.inr ⟨data, rfl, Or.inr ⟨le_of_not_lt hneg, hs.symm⟩⟩⟩

lemma creditDept_nonneg {depts : List FireDept} {fdId : Nat} {amt : Int}
    (hs : ∀ fd ∈ depts, 0 ≤ fd.available) (hamt : 0 ≤ amt) :
    ∀ fd ∈ creditDept fdId amt depts, 0 ≤ fd.available := by
  unfold creditDept
  intro fd hfd
  rcases List.mem_map.mp hfd with ⟨fd0, hfd0, rfl⟩
  by_cases hid : fd0.id = fdId
  · have h0 := hs fd0 hfd0
    simp only [hid, if_true]
    show 0 ≤ fd0.available + amt
    omega
  · simpa [hid] using hs fd0 hfd0

lemma reportStep_nonneg {s : St} {req : ReportRequest} {alloc : Option AllocData}
    (hs : deptsNonneg s) : deptsNonneg (reportStep s req alloc) := by
  unfold reportStep
  cases hrep : reportIncident s req alloc with
  | error e => exact hs
  | ok pr =>
      rcases pr with ⟨s2, r⟩
      show deptsNonneg s2
      obtain ⟨-, lat, lon, -, -, -, hcase⟩ := report_ok_cases hrep
      rcases hcase with ⟨-, hs2⟩ | ⟨data, -, hcase2⟩
      · subst hs2; exact hs
      · rcases hcase2 with ⟨-, hs2⟩ | ⟨-, hs2⟩
        · subst hs2
          exact foldl_applyAssignment_nonneg _ _ hs
        · subst hs2; exact hs

lemma statusStep_nonneg {d : DistFn} {s : St} {incId : Nat} {body : Option String}
    (hs : deptsNonneg s) : deptsNonneg (statusStep d s incId body) := by
  unfold statusStep
  cases hupd : updateIncidentStatus d s incId body with
  | error e => exact hs
  | ok pr =>
      rcases pr with ⟨s2, u⟩
      show deptsNonneg s2
      obtain ⟨ns, row, -, -, -, hcases⟩ := update_ok_cases hupd
      rcases hcases with ⟨hg, hsub⟩ | ⟨-, hs2, -⟩
      · rcases hsub with ⟨nf, -, hs2, -⟩ | ⟨-, hs2, -⟩
        · subst hs2
          exact creditDept_nonneg hs (le_of_lt hg.2.1)
        · subst hs2; exact hs
      · subst hs2; exact hs

/-- C1: starting from any state in which every fire department's available
responder count is non-negative, no department's count ever becomes
negative across any sequence of incident-creation (reserve) and
status-change (release) operations, for every possible allocation response
— the reserve SQL clamps at 0 and the release guard only adds positive
amounts. -/
theorem c1_capacity_never_negative {d : DistFn} {s s2 : St}
    (hs : deptsNonneg s) (hsteps : Relation.ReflTransGen (Step d) s s2) :
    deptsNonneg s2 := by
  induction hsteps with
  | refl => exact hs
  | tail _ hstep ih =>
      cases hstep with
      | report req alloc => exact reportStep_nonneg ih
      | status incId body => exact statusStep_nonneg ih

theorem c1_capacity_never_negative_witness :
    deptsNonneg (stOneDept (fdCoord 1 3)) ∧
    deptsNonneg (reportStep (stOneDept (fdCoord 1 3)) (mkRequest 1)
      (some (mkAlloc 1 5))) :=
  ⟨by decide, c1_capacity_never_negative (by decide)
    (Relation.ReflTransGen.single
      (Step.report (d := dist0) (stOneDept (fdCoord 1 3)) (mkRequest 1)
        (some (mkAlloc 1 5))))⟩

lemma setStatus_setStatus (incId : Nat) (ns : Status) (l : List Incident) :
    setStatus incId ns (setStatus incId ns l) = setStatus incId ns l := by
  unfold setStatus
  rw [List.map_map]
  apply List.map_congr_left
  intro i _
  by_cases h : i.id = incId <;> simp [h]

lemma setStatus_resetDispatched_map (incId : Nat) (ns : Status) (l : List Incident) :
    setStatus incId ns (resetDispatched incId l)
      = l.map (fun i => if i.id = incId
          then { i with status := ns, dispatched_responders := 0 } else i) := by
  unfold setStatus resetDispatched
  rw [List.map_map]
  apply List.map_congr_left
  intro i _
  by_cases h : i.id = incId <;> simp [h]

/-- C2 (amended): for every status change where the old status is
in_process, the new status is not in_process and dispatched_responders > 0,
PROVIDED the nearest-department scan finds a department (at least one
department has both coordinates), the operation adds dispatched_responders
to the available count of the scanned department — a department whose
distance from the incident is minimal among all departments with
coordinates — and resets the incident's dispatched_responders to 0; and no
department count changes and dispatched_responders is untouched whenever
the leave-in_process guard fails. -/
theorem c2_reclaim_to_nearest {d : DistFn} {s : St} {incId : Nat}
    {body : Option String} {s2 : St} {u : Incident} {ns : Status} {row : Incident}
    (hps : parseStatus body = some ns)
    (hrow : s.incidents.find? (fun i => i.id = incId) = some row)
    (h : updateIncidentStatus d s incId body = .ok (s2, u)) :
    ((row.status = .inProcess ∧ 0 < row.dispatched_responders ∧ ns ≠ .inProcess) →
      ∀ nf, nearestFd d row.latitude row.longitude s.depts = some nf →
        s2.depts = creditDept nf.id row.dispatched_responders s.depts ∧
        nf ∈ s.depts ∧
        (∃ fl fo, nf.latitude = some fl ∧ nf.longitude = some fo ∧
          ∀ fd ∈ s.depts, ∀ gl go, fd.latitude = some gl → fd.longitude = some go →
            d row.latitude row.longitude fl fo ≤ d row.latitude row.longitude gl go) ∧
        u.dispatched_responders = 0 ∧ u.status = ns) ∧
    (¬(row.status = .inProcess ∧ 0 < row.dispatched_responders ∧ ns ≠ .inProcess) →
      s2.depts = s.depts ∧ u.dispatched_responders = row.dispatched_responders ∧
      u.status = ns) := by
  obtain ⟨ns2, row2, hps2, hrow2, hrowid, hcases⟩ := update_ok_cases h
  rw [hps] at hps2
  rw [hrow] at hrow2
  obtain rfl : ns = ns2 := Option.some.inj hps2
  obtain rfl : row = row2 := Option.some.inj hrow2
  constructor
  · intro hg nf hnf
    rcases hcases with ⟨-, hsub⟩ | ⟨hng, -, -⟩
    · rcases hsub with ⟨nf2, hnf2, hs2, hu⟩ | ⟨hnone, -, -⟩
      · rw [hnf] at hnf2
        obtain rfl : nf = nf2 := Option.some.inj hnf2
        obtain ⟨hmem, fl, fo, hfl, hfo, hmin⟩ := nearestFd_spec hnf
        subst hs2
        subst hu
        exact ⟨rfl, hmem, ⟨fl, fo, hfl, hfo, hmin⟩, rfl, rfl⟩
      · rw [hnf] at hnone
        cases hnone
    · exact absurd hg hng
  · intro hng
    rcases hcases with ⟨hg, -⟩ | ⟨-, hs2, hu⟩
    · exact absurd hg hng
    · subst hs2
      subst hu
      exact ⟨rfl, rfl, rfl⟩

theorem c2_reclaim_to_nearest_witness :
    parseStatus (some statusResolvedStr) = some Status.resolved ∧
    (stWith (fdCoord 1 10) (mkIncident 1 .inProcess 2 5)).incidents.find?
        (fun i => i.id = 1) = some (mkIncident 1 .inProcess 2 5) ∧
    updateIncidentStatus dist0 (stWith (fdCoord 1 10) (mkIncident 1 .inProcess 2 5))
        1 (some statusResolvedStr)
      = .ok (stWith (fdCoord 1 15) (mkIncident 1 .resolved 2 0),
             mkIncident 1 .resolved 2 0) ∧
    nearestFd dist0 (mkIncident 1 .inProcess 2 5).latitude
        (mkIncident 1 .inProcess 2 5).longitude
        (stWith (fdCoord 1 10) (mkIncident 1 .inProcess 2 5)).depts
      = some (fdCoord 1 10) ∧
    (stWith (fdCoord 1 15) (mkIncident 1 .resolved 2 0)).depts
      = creditDept (fdCoord 1 10).id (mkIncident 1 .inProcess 2 5).dispatched_responders
          (stWith (fdCoord 1 10) (mkIncident 1 .inProcess 2 5)).depts ∧
    (mkIncident 1 .resolved 2 0).dispatched_responders = 0 := by
  have hps : parseStatus (some statusResolvedStr) = some Status.resolved := rfl
  have hrow : (stWith (fdCoord 1 10) (mkIncident 1 .inProcess 2 5)).incidents.find?
      (fun i => i.id = 1) = some (mkIncident 1 .inProcess 2 5) := rfl
  have hupd : updateIncidentStatus dist0
      (stWith (fdCoord 1 10) (mkIncident 1 .inProcess 2 5)) 1 (some statusResolvedStr)
      = .ok (stWith (fdCoord 1 15) (mkIncident 1 .resolved 2 0),
             mkIncident 1 .resolved 2 0) := rfl
  have hc := (c2_reclaim_to_nearest hps hrow hupd).1 (by decide) (fdCoord 1 10) rfl
  exact ⟨hps, hrow, hupd, rfl, hc.1, hc.2.2.2.1⟩

theorem c2_counterexample :
    (mkIncident 1 .inProcess 2 5).status = Status.inProcess ∧
    (0 : Int) < (mkIncident 1 .inProcess 2 5).dispatched_responders ∧
    Status.resolved ≠ Status.inProcess ∧
    updateIncidentStatus dist0 (stWith (fdNoCoord 1 10) (mkIncident 1 .inProcess 2 5))
        1 (some statusResolvedStr)
      = .ok (stWith (fdNoCoord 1 10) (mkIncident 1 .resolved 2 5),
             mkIncident 1 .resolved 2 5) ∧
    ¬ (mkIncident 1 .resolved 2 5).dispatched_responders = 0 ∧
    (stWith (fdNoCoord 1 10) (mkIncident 1 .resolved 2 5)).depts
      = (stWith (fdNoCoord 1 10) (mkIncident 1 .inProcess 2 5)).depts :=
  ⟨rfl, by decide, by decide, rfl, by decide, rfl⟩

/-- C9: when no fire department has both a non-null latitude and a
non-null longitude, a status change that leaves in_process with
dispatched_responders > 0 still sets the new status but performs no
reclamation: the department table is unchanged and the incident keeps its
old dispatched_responders value. -/
theorem c9_no_coordinates_no_reclaim {d : DistFn} {s : St} {incId : Nat}
    {body : Option String} {s2 : St} {u : Incident} {ns : Status} {row : Incident}
    (hps : parseStatus body = some ns)
    (hrow : s.incidents.find? (fun i => i.id = incId) = some row)
    (hnc : ∀ fd ∈ s.depts, fd.latitude = none ∨ fd.longitude = none)
    (hold : row.status = .inProcess)
    (hdisp : 0 < row.dispatched_responders)
    (hns : ns ≠ .inProcess)
    (h : updateIncidentStatus d s incId body = .ok (s2, u)) :
    s2.depts = s.depts ∧ u.status = ns ∧
    u.dispatched_responders = row.dispatched_responders := by
  obtain ⟨ns2, row2, hps2, hrow2, -, hcases⟩ := update_ok_cases h
  rw [hps] at hps2
  rw [hrow] at hrow2
  obtain rfl : ns = ns2 := Option.some.inj hps2
  obtain rfl : row = row2 := Option.some.inj hrow2
  have hnone := nearestFd_eq_none d row.latitude row.longitude hnc
  rcases hcases with ⟨-, hsub⟩ | ⟨hng, -, -⟩
  · rcases hsub with ⟨nf, hnf, -, -⟩ | ⟨-, hs2, hu⟩
    · rw [hnone] at hnf
      cases hnf
    · subst hs2
      subst hu
      exact ⟨rfl, rfl, rfl⟩
  · exact absurd ⟨hold, hdisp, hns⟩ hng

theorem c9_no_coordinates_no_reclaim_witness :
    parseStatus (some statusResolvedStr) = some Status.resolved ∧
    (stWith (fdNoCoord 1 4) (mkIncident 1 .inProcess 3 6)).incidents.find?
        (fun i => i.id = 1) = some (mkIncident 1 .inProcess 3 6) ∧
    (∀ fd ∈ (stWith (fdNoCoord 1 4) (mkIncident 1 .inProcess 3 6)).depts,
      fd.latitude = none ∨ fd.longitude = none) ∧
    updateIncidentStatus dist0 (stWith (fdNoCoord 1 4) (mkIncident 1 .inProcess 3 6))
        1 (some statusResolvedStr)
      = .ok (stWith (fdNoCoord 1 4) (mkIncident 1 .resolved 3 6),
             mkIncident 1 .resolved 3 6) ∧
    ((stWith (fdNoCoord 1 4) (mkIncident 1 .resolved 3 6)).depts
        = (stWith (fdNoCoord 1 4) (mkIncident 1 .inProcess 3 6)).depts ∧
      (mkIncident 1 .resolved 3 6).status = Status.resolved ∧
      (mkIncident 1 .resolved 3 6).dispatched_responders
        = (mkIncident 1 .inProcess 3 6).dispatched_responders) := by
  have hps : parseStatus (some statusResolvedStr) = some Status.resolved := rfl
  have hrow : (stWith (fdNoCoord 1 4) (mkIncident 1 .inProcess 3 6)).incidents.find?
      (fun i => i.id = 1) = some (mkIncident 1 .inProcess 3 6) := rfl
  have hupd : updateIncidentStatus dist0
      (stWith (fdNoCoord 1 4) (mkIncident 1 .inProcess 3 6)) 1 (some statusResolvedStr)
      = .ok (stWith (fdNoCoord 1 4) (mkIncident 1 .resolved 3 6),
             mkIncident 1 .resolved 3 6) := rfl
  exact ⟨hps, hrow, by decide, hupd,
    c9_no_coordinates_no_reclaim hps hrow (by decide) rfl (by decide) (by decide) hupd⟩

/-- C10: every successful status change modifies at most the found
incident row's status and dispatched_responders fields (type, description,
coordinates, severity, priority fields and created_at are unchanged),
changes the available count of at most one department id — the scanned
nearest one — touching no other department field, and leaves every other
incident row and the rest of the state unchanged. -/
theorem c10_status_change_frame {d : DistFn} {s : St} {incId : Nat}
    {body : Option String} {s2 : St} {u : Incident} {ns : Status} {row : Incident}
    (hps : parseStatus body = some ns)
    (hrow : s.incidents.find? (fun i => i.id = incId) = some row)
    (h : updateIncidentStatus d s incId body = .ok (s2, u)) :
    u.type = row.type ∧ u.description = row.description ∧
    u.latitude = row.latitude ∧ u.longitude = row.longitude ∧
    u.severity_score = row.severity_score ∧
    u.priority_score = row.priority_score ∧
    u.priority_explanation = row.priority_explanation ∧
    u.created_at = row.created_at ∧
    (∃ t : Option Nat, ∃ k : Int,
      s2.depts = s.depts.map (fun fd =>
        if t = some fd.id then { fd with available := fd.available + k } else fd) ∧
      ∀ tid, t = some tid →
        ∃ nf, nearestFd d row.latitude row.longitude s.depts = some nf ∧
          nf.id = tid) ∧
    (∃ b : Bool, s2.incidents = s.incidents.map (fun i =>
      if i.id = incId then
        { i with status := ns
                 dispatched_responders := if b then 0 else i.dispatched_responders }
      else i)) ∧
    s2.nextId = s.nextId ∧ s2.clock = s.clock := by
  obtain ⟨ns2, row2, hps2, hrow2, hrowid, hcases⟩ := update_ok_cases h
  rw [hps] at hps2
  rw [hrow] at hrow2
  obtain rfl : ns = ns2 := Option.some.inj hps2
  obtain rfl : row = row2 := Option.some.inj hrow2
  rcases hcases with ⟨hg, hsub⟩ | ⟨hng, hs2, hu⟩
  · rcases hsub with ⟨nf, hnf, hs2, hu⟩ | ⟨hnone, hs2, hu⟩
    · subst hs2
      subst hu
      refine ⟨rfl, rfl, rfl, rfl, rfl, rfl, rfl, rfl, ?_, ?_, rfl, rfl⟩
      · refine ⟨some nf.id, row.dispatched_responders, ?_, ?_⟩
        · show creditDept nf.id row.dispatched_responders s.depts = _
          unfold creditDept
          apply List.map_congr_left
          intro fd _
          by_cases hid : fd.id = nf.id
          · simp [hid]
          · have hid2 : ¬ nf.id = fd.id := fun hh => hid hh.symm
            simp [hid, hid2]
        · intro tid htid
          exact ⟨nf, hnf, Option.some.inj htid⟩
      · refine ⟨true, ?_⟩
        show setStatus incId ns (resetDispatched incId s.incidents) = _
        rw [setStatus_resetDispatched_map]
        apply List.map_congr_left
        intro i _
        by_cases hid : i.id = incId <;> simp [hid]
    · subst hs2
      subst hu
      refine ⟨rfl, rfl, rfl, rfl, rfl, rfl, rfl, rfl, ?_, ?_, rfl, rfl⟩
      · refine ⟨none, 0, by simp, by intro tid htid; cases htid⟩
      · refine ⟨false, ?_⟩
        show setStatus incId ns s.incidents = _
        unfold setStatus
        apply List.map_congr_left
        intro i _
        by_cases hid : i.id = incId <;> simp [hid]
  · subst hs2
    subst hu
    refine ⟨rfl, rfl, rfl, rfl, rfl, rfl, rfl, rfl, ?_, ?_, rfl, rfl⟩
    · refine ⟨none, 0, by simp, by intro tid htid; cases htid⟩
    · refine ⟨false, ?_⟩
      show setStatus incId ns s.incidents = _
      unfold setStatus
      apply List.map_congr_left
      intro i _
      by_cases hid : i.id = incId <;> simp [hid]

theorem c10_status_change_frame_witness :
    parseStatus (some statusResolvedStr) = some Status.resolved ∧
    (stWith (fdCoord 1 10) (mkIncident 1 .inProcess 4 9)).incidents.find?
        (fun i => i.id = 1) = some (mkIncident 1 .inProcess 4 9) ∧
    updateIncidentStatus dist0 (stWith (fdCoord 1 10) (mkIncident 1 .inProcess 4 9))
        1 (some statusResolvedStr)
      = .ok (stWith (fdCoord 1 19) (mkIncident 1 .resolved 4 0),
             mkIncident 1 .resolved 4 0) ∧
    (mkIncident 1 .resolved 4 0).type = (mkIncident 1 .inProcess 4 9).type ∧
    (mkIncident 1 .resolved 4 0).created_at
      = (mkIncident 1 .inProcess 4 9).created_at ∧
    (stWith (fdCoord 1 19) (mkIncident 1 .resolved 4 0)).nextId
      = (stWith (fdCoord 1 10) (mkIncident 1 .inProcess 4 9)).nextId := by
  have hps : parseStatus (some statusResolvedStr) = some Status.resolved := rfl
  have hrow : (stWith (fdCoord 1 10) (mkIncident 1 .inProcess 4 9)).incidents.find?
      (fun i => i.id = 1) = some (mkIncident 1 .inProcess 4 9) := rfl
  have hupd : updateIncidentStatus dist0
      (stWith (fdCoord 1 10) (mkIncident 1 .inProcess 4 9)) 1 (some statusResolvedStr)
      = .ok (stWith (fdCoord 1 19) (mkIncident 1 .resolved 4 0),
             mkIncident 1 .resolved 4 0) := rfl
  have hc := c10_status_change_frame hps hrow hupd
  exact ⟨hps, hrow, hupd, hc.1, hc.2.2.2.2.2.2.2.1,
    hc.2.2.2.2.2.2.2.2.2.2.1⟩

/-- C7 (amended): provided the nearest-department scan finds a department,
applying the same leave-in_process status change twice releases responders
exactly once — the first application credits the nearest department and
zeroes the incident's dispatched_responders; the second changes no
department count and no incident record (the status write rewrites the
same value). -/
theorem c7_reclaim_idempotent {d : DistFn} {s : St} {incId : Nat}
    {body : Option String} {s1 : St} {u1 : Incident} {s2 : St} {u2 : Incident}
    {ns : Status} {row : Incident} {nf : FireDept}
    (hps : parseStatus body = some ns)
    (hrow : s.incidents.find? (fun i => i.id = incId) = some row)
    (hold : row.status = .inProcess)
    (hdisp : 0 < row.dispatched_responders)
    (hns : ns ≠ .inProcess)
    (hnf : nearestFd d row.latitude row.longitude s.depts = some nf)
    (h1 : updateIncidentStatus d s incId body = .ok (s1, u1))
    (h2 : updateIncidentStatus d s1 incId body = .ok (s2, u2)) :
    s1.depts = creditDept nf.id row.dispatched_responders s.depts ∧
    u1.dispatched_responders = 0 ∧
    s2.depts = s1.depts ∧ s2.incidents = s1.incidents ∧ u2 = u1 := by
  obtain ⟨nsA, rowA, hpsA, hrowA, -, hcasesA⟩ := update_ok_cases h1
  rw [hps] at hpsA
  rw [hrow] at hrowA
  obtain rfl : ns = nsA := Option.some.inj hpsA
  obtain rfl : row = rowA := Option.some.inj hrowA
  have hrowid : row.id = incId := by
    have := List.find?_some hrow
    simpa using this
  rcases hcasesA with ⟨-, hsubA⟩ | ⟨hng, -, -⟩
  swap
  · exact absurd ⟨hold, hdisp, hns⟩ hng
  rcases hsubA with ⟨nfA, hnfA, hs1, hu1⟩ | ⟨hnone, -, -⟩
  swap
  · rw [hnf] at hnone
    cases hnone
  rw [hnf] at hnfA
  obtain rfl : nf = nfA := Option.some.inj hnfA
  subst hs1
  subst hu1
  obtain ⟨nsB, rowB, hpsB, hrowB, -, hcasesB⟩ := update_ok_cases h2
  rw [hps] at hpsB
  obtain rfl : ns = nsB := Option.some.inj hpsB
  have hfind1 : (setStatus incId ns (resetDispatched incId s.incidents)).find?
      (fun i => i.id = incId)
      = some { row with dispatched_responders := 0, status := ns } := by
    rw [find_setStatus, find_resetDispatched, hrow]
    simp [hrowid]
  simp only at hrowB
  rw [hfind1] at hrowB
  obtain rfl : ({ row with dispatched_responders := 0, status := ns } : Incident)
      = rowB := Option.some.inj hrowB
  rcases hcasesB with ⟨hgB, -⟩ | ⟨-, hs2, hu2⟩
  · exact absurd hgB.1 hns
  · subst hs2
    subst hu2
    refine ⟨rfl, rfl, rfl, ?_, rfl⟩
    show setStatus incId ns (setStatus incId ns (resetDispatched incId s.incidents))
      = setStatus incId ns (resetDispatched incId s.incidents)
    exact setStatus_setStatus incId ns (resetDispatched incId s.incidents)

theorem c7_reclaim_idempotent_witness :
    parseStatus (some statusResolvedStr) = some Status.resolved ∧
    (stWith (fdCoord 2 10) (mkIncident 1 .inProcess 5 8)).incidents.find?
        (fun i => i.id = 1) = some (mkIncident 1 .inProcess 5 8) ∧
    nearestFd dist0 (mkIncident 1 .inProcess 5 8).latitude
        (mkIncident 1 .inProcess 5 8).longitude
        (stWith (fdCoord 2 10) (mkIncident 1 .inProcess 5 8)).depts
      = some (fdCoord 2 10) ∧
    updateIncidentStatus dist0 (stWith (fdCoord 2 10) (mkIncident 1 .inProcess 5 8))
        1 (some statusResolvedStr)
      = .ok (stWith (fdCoord 2 18) (mkIncident 1 .resolved 5 0),
             mkIncident 1 .resolved 5 0) ∧
    updateIncidentStatus dist0 (stWith (fdCoord 2 18) (mkIncident 1 .resolved 5 0))
        1 (some statusResolvedStr)
      = .ok (stWith (fdCoord 2 18) (mkIncident 1 .resolved 5 0),
             mkIncident 1 .resolved 5 0) ∧
    ((stWith (fdCoord 2 18) (mkIncident 1 .resolved 5 0)).depts
        = creditDept (fdCoord 2 10).id
            (mkIncident 1 .inProcess 5 8).dispatched_responders
            (stWith (fdCoord 2 10) (mkIncident 1 .inProcess 5 8)).depts ∧
      (mkIncident 1 .resolved 5 0).dispatched_responders = 0 ∧
      (stWith (fdCoord 2 18) (mkIncident 1 .resolved 5 0)).depts
        = (stWith (fdCoord 2 18) (mkIncident 1 .resolved 5 0)).depts ∧
      (stWith (fdCoord 2 18) (mkIncident 1 .resolved 5 0)).incidents
        = (stWith (fdCoord 2 18) (mkIncident 1 .resolved 5 0)).incidents ∧
      mkIncident 1 .resolved 5 0 = mkIncident 1 .resolved 5 0) := by
  have hps : parseStatus (some statusResolvedStr) = some Status.resolved := rfl
  have hrow : (stWith (fdCoord 2 10) (mkIncident 1 .inProcess 5 8)).incidents.find?
      (fun i => i.id = 1) = some (mkIncident 1 .inProcess 5 8) := rfl
  have hnf : nearestFd dist0 (mkIncident 1 .inProcess 5 8).latitude
      (mkIncident 1 .inProcess 5 8).longitude
      (stWith (fdCoord 2 10) (mkIncident 1 .inProcess 5 8)).depts
      = some (fdCoord 2 10) := rfl
  have h1 : updateIncidentStatus dist0
      (stWith (fdCoord 2 10) (mkIncident 1 .inProcess 5 8)) 1 (some statusResolvedStr)
      = .ok (stWith (fdCoord 2 18) (mkIncident 1 .resolved 5 0),
             mkIncident 1 .resolved 5 0) := rfl
  have h2 : updateIncidentStatus dist0
      (stWith (fdCoord 2 18) (mkIncident 1 .resolved 5 0)) 1 (some statusResolvedStr)
      = .ok (stWith (fdCoord 2 18) (mkIncident 1 .resolved 5 0),
             mkIncident 1 .resolved 5 0) := rfl
  exact ⟨hps, hrow, hnf, h1, h2,
    c7_reclaim_idempotent hps hrow rfl (by decide) (by decide) hnf h1 h2⟩

theorem c7_counterexample :
    (mkIncident 1 .inProcess 5 7).status = Status.inProcess ∧
    (mkIncident 1 .inProcess 5 7).dispatched_responders = 7 ∧
    updateIncidentStatus dist0 (stWith (fdNoCoord 2 9) (mkIncident 1 .inProcess 5 7))
        1 (some statusResolvedStr)
      = .ok (stWith (fdNoCoord 2 9) (mkIncident 1 .resolved 5 7),
             mkIncident 1 .resolved 5 7) ∧
    ¬ (mkIncident 1 .resolved 5 7).dispatched_responders = 0 ∧
    (stWith (fdNoCoord 2 9) (mkIncident 1 .resolved 5 7)).depts
      = (stWith (fdNoCoord 2 9) (mkIncident 1 .inProcess 5 7)).depts :=
  ⟨rfl, rfl, rfl, by decide, rfl⟩

/-- C3 (amended): for a reserve of `amount` responders from a department
(one assignment for the created incident with a parseable id): if the
department's available count is ≥ amount, the count is decremented by
exactly amount; otherwise the count is SET TO 0 — the reserve does not
fail and the count is not left unchanged.  A reserve with amount == 0
leaves every department count unchanged. -/
theorem c3_reserve_clamps_to_zero {s : St} {req : ReportRequest} {data : AllocData}
    {s2 : St} {r : ReportResponse} {a : RespAssignment} {fdId : Int}
    (hm : matchingAssignments s.nextId data = [a])
    (hid : a.fire_department_id = some fdId)
    (h : reportIncident s req (some data) = .ok (s2, r)) :
    (0 < a.responders_dispatched.getD 0 →
      s2.depts = s.depts.map (fun fd =>
        if (fd.id : Int) = fdId then
          { fd with available :=
              if a.responders_dispatched.getD 0 ≤ fd.available
              then fd.available - a.responders_dispatched.getD 0 else 0 }
        else fd)) ∧
    (a.responders_dispatched.getD 0 = 0 → s2.depts = s.depts) := by
  obtain ⟨-, lat, lon, -, -, -, hcase⟩ := report_ok_cases h
  rcases hcase with ⟨hnone, -⟩ | ⟨data2, hdata, hsub⟩
  · cases hnone
  · obtain rfl : data = data2 := Option.some.inj hdata
    have hamt : assignmentAmount a = a.responders_dispatched.getD 0 := by
      unfold assignmentAmount
      rw [hid]
    have htot : requestedTotal (matchingAssignments s.nextId data)
        = a.responders_dispatched.getD 0 := by
      rw [hm]
      unfold requestedTotal
      simp [hamt]
    constructor
    · intro hpos
      rcases hsub with ⟨-, hs2⟩ | ⟨hle, -⟩
      · subst hs2
        show (matchingAssignments s.nextId data).foldl applyAssignment s.depts = _
        rw [hm]
        show applyAssignment s.depts a = _
        unfold applyAssignment
        rw [hid]
        rfl
      · rw [htot] at hle
        omega
    · intro hz
      rcases hsub with ⟨hpos, -⟩ | ⟨-, hs2⟩
      · rw [htot, hz] at hpos
        exact absurd hpos (by decide)
      · subst hs2
        rfl

theorem c3_reserve_clamps_to_zero_witness :
    matchingAssignments (stOneDept (fdCoord 1 10)).nextId (mkAlloc 1 4) = [asg 1 4] ∧
    (asg 1 4).fire_department_id = some 1 ∧
    reportIncident (stOneDept (fdCoord 1 10)) (mkRequest 1) (some (mkAlloc 1 4))
      = .ok (stRes (fdCoord 1 6) (mkIncident 1 .inProcess 1 4),
             resResp 1 (mkAlloc 1 4)) ∧
    0 < (asg 1 4).responders_dispatched.getD 0 ∧
    (stRes (fdCoord 1 6) (mkIncident 1 .inProcess 1 4)).depts
      = (stOneDept (fdCoord 1 10)).depts.map (fun fd =>
          if (fd.id : Int) = 1 then
            { fd with available :=
                if (asg 1 4).responders_dispatched.getD 0 ≤ fd.available
                then fd.available - (asg 1 4).responders_dispatched.getD 0 else 0 }
          else fd) := by
  have hm : matchingAssignments (stOneDept (fdCoord 1 10)).nextId (mkAlloc 1 4)
      = [asg 1 4] := rfl
  have hid : (asg 1 4).fire_department_id = some 1 := rfl
  have hrep : reportIncident (stOneDept (fdCoord 1 10)) (mkRequest 1)
      (some (mkAlloc 1 4))
      = .ok (stRes (fdCoord 1 6) (mkIncident 1 .inProcess 1 4),
             resResp 1 (mkAlloc 1 4)) := rfl
  exact ⟨hm, hid, hrep, by decide,
    (c3_reserve_clamps_to_zero hm hid hrep).1 (by decide)⟩

theorem c3_counterexample :
    (fdCoord 1 3).available = 3 ∧
    (asg 1 5).responders_dispatched.getD 0 = 5 ∧
    reportIncident (stOneDept (fdCoord 1 3)) (mkRequest 1) (some (mkAlloc 1 5))
      = .ok (stRes (fdCoord 1 0) (mkIncident 1 .inProcess 1 5),
             resResp 1 (mkAlloc 1 5)) ∧
    (stRes (fdCoord 1 0) (mkIncident 1 .inProcess 1 5)).depts = [fdCoord 1 0] ∧
    ¬ (stRes (fdCoord 1 0) (mkIncident 1 .inProcess 1 5)).depts
        = (stOneDept (fdCoord 1 3)).depts :=
  ⟨rfl, rfl, rfl, rfl, by decide⟩

/-- C4 (amended): the created incident's final dispatched_responders
equals the sum of the amounts the allocation response REQUESTED (over
assignments with parseable department ids) when that sum is positive, and
0 otherwise; it is not the sum of the amounts actually subtracted from
department capacities and is not bounded by severity_score * 10. -/
theorem c4_dispatched_is_requested_sum {s : St} {req : ReportRequest}
    {data : AllocData} {s2 : St} {r : ReportResponse}
    (h : reportIncident s req (some data) = .ok (s2, r)) :
    ∃ inc, s2.incidents = s.incidents ++ [inc] ∧
      inc.dispatched_responders =
        (if 0 < requestedTotal (matchingAssignments s.nextId data)
         then requestedTotal (matchingAssignments s.nextId data) else 0) := by
  obtain ⟨-, lat, lon, -, -, -, hcase⟩ := report_ok_cases h
  rcases hcase with ⟨hnone, -⟩ | ⟨data2, hdata, hsub⟩
  · cases hnone
  · obtain rfl : data = data2 := Option.some.inj hdata
    rcases hsub with ⟨hpos, hs2⟩ | ⟨hle, hs2⟩
    · subst hs2
      exact ⟨_, rfl, by rw [if_pos hpos]⟩
    · subst hs2
      refine ⟨_, rfl, ?_⟩
      rw [if_neg (not_lt.mpr hle)]
      rfl

theorem c4_dispatched_is_requested_sum_witness :
    reportIncident (stOneDept (fdCoord 1 20)) (mkRequest 1) (some (mkAlloc 1 6))
      = .ok (stRes (fdCoord 1 14) (mkIncident 1 .inProcess 1 6),
             resResp 1 (mkAlloc 1 6)) ∧
    (∃ inc, (stRes (fdCoord 1 14) (mkIncident 1 .inProcess 1 6)).incidents
        = (stOneDept (fdCoord 1 20)).incidents ++ [inc] ∧
      inc.dispatched_responders =
        (if 0 < requestedTotal (matchingAssignments
            (stOneDept (fdCoord 1 20)).nextId (mkAlloc 1 6))
         then requestedTotal (matchingAssignments
            (stOneDept (fdCoord 1 20)).nextId (mkAlloc 1 6)) else 0)) := by
  have hrep : reportIncident (stOneDept (fdCoord 1 20)) (mkRequest 1)
      (some (mkAlloc 1 6))
      = .ok (stRes (fdCoord 1 14) (mkIncident 1 .inProcess 1 6),
             resResp 1 (mkAlloc 1 6)) := rfl
  exact ⟨hrep, c4_dispatched_is_requested_sum hrep⟩

theorem c4_counterexample :
    reportIncident (stOneDept (fdCoord 1 3)) (mkRequest 1) (some (mkAlloc 1 50))
      = .ok (stRes (fdCoord 1 0) (mkIncident 1 .inProcess 1 50),
             resResp 1 (mkAlloc 1 50)) ∧
    (mkIncident 1 .inProcess 1 50).dispatched_responders = 50 ∧
    subtractedTotal (stOneDept (fdCoord 1 3)).depts
        (stRes (fdCoord 1 0) (mkIncident 1 .inProcess 1 50)).depts = 3 ∧
    (mkIncident 1 .inProcess 1 50).severity_score * 10 = 10 ∧
    ¬ ((mkIncident 1 .inProcess 1 50).dispatched_responders
          = subtractedTotal (stOneDept (fdCoord 1 3)).depts
              (stRes (fdCoord 1 0) (mkIncident 1 .inProcess 1 50)).depts ∧
       (mkIncident 1 .inProcess 1 50).dispatched_responders
          ≤ (mkIncident 1 .inProcess 1 50).severity_score * 10) :=
  ⟨rfl, rfl, by decide, by decide, by decide⟩

/-- C5 (amended): the response returned to the caller carries the incident
id, the severity score and the raw allocation data echoed verbatim —
nothing else; the backend computes no shortfall and the response carries
no shortfall field. -/
theorem c5_response_echoes_without_shortfall {s : St} {req : ReportRequest}
    {data : AllocData} {s2 : St} {r : ReportResponse}
    (h : reportIncident s req (some data) = .ok (s2, r)) :
    r = { incident_id := s.nextId, saved_files := []
          severity_score := reqSeverity req
          resource_allocation := some data
          resource_allocation_error := none } := by
  obtain ⟨-, lat, lon, -, -, hr, -⟩ := report_ok_cases h
  exact hr

theorem c5_response_echoes_without_shortfall_witness :
    reportIncident (stOneDept (fdCoord 1 5)) (mkRequest 3) (some (mkAlloc 1 2))
      = .ok (stRes (fdCoord 1 3) (mkIncident 1 .inProcess 3 2),
             resResp 3 (mkAlloc 1 2)) ∧
    resResp 3 (mkAlloc 1 2)
      = { incident_id := (stOneDept (fdCoord 1 5)).nextId, saved_files := []
          severity_score := reqSeverity (mkRequest 3)
          resource_allocation := some (mkAlloc 1 2)
          resource_allocation_error := none } := by
  have hrep : reportIncident (stOneDept (fdCoord 1 5)) (mkRequest 3)
      (some (mkAlloc 1 2))
      = .ok (stRes (fdCoord 1 3) (mkIncident 1 .inProcess 3 2),
             resResp 3 (mkAlloc 1 2)) := rfl
  exact ⟨hrep, c5_response_echoes_without_shortfall hrep⟩

theorem c5_counterexample :
    reportIncident (stOneDept (fdCoord 1 3)) (mkRequest 2) (some (mkAlloc 1 3))
      = .ok (stRes (fdCoord 1 0) (mkIncident 1 .inProcess 2 3),
             resResp 2 (mkAlloc 1 3)) ∧
    reqSeverity (mkRequest 2) * 10
      - requestedTotal (matchingAssignments 1 (mkAlloc 1 3)) = 17 ∧
    reqSeverity (mkRequest 2) * 10
      - subtractedTotal (stOneDept (fdCoord 1 3)).depts
          (stRes (fdCoord 1 0) (mkIncident 1 .inProcess 2 3)).depts = 17 ∧
    ¬ (17 : Int) ∈ responseNumbers (resResp 2 (mkAlloc 1 3)) :=
  ⟨rfl, by decide, by decide, by decide⟩

/-- C6: after every incident creation, the incident's status is in_process
exactly when the dispatched total the code computed is positive, and it
stays at the schema default 'open' otherwise; dispatched_responders is
that total when positive and 0 otherwise. -/
theorem c6_status_after_allocation {s : St} {req : ReportRequest}
    {alloc : Option AllocData} {s2 : St} {r : ReportResponse}
    (h : reportIncident s req alloc = .ok (s2, r)) :
    ∃ inc total,
      s2.incidents = s.incidents ++ [inc] ∧
      total = (match alloc with
               | none => 0
               | some data => requestedTotal (matchingAssignments s.nextId data)) ∧
      inc.status = (if 0 < total then Status.inProcess else Status.open_) ∧
      inc.dispatched_responders = (if 0 < total then total else 0) := by
  obtain ⟨-, lat, lon, -, -, -, hcase⟩ := report_ok_cases h
  rcases hcase with ⟨halloc, hs2⟩ | ⟨data, halloc, hsub⟩
  · subst halloc
    subst hs2
    exact ⟨_, 0, rfl, rfl, by simp [newIncident], by simp [newIncident]⟩
  · subst halloc
    rcases hsub with ⟨hpos, hs2⟩ | ⟨hle, hs2⟩
    · subst hs2
      exact ⟨_, requestedTotal (matchingAssignments s.nextId data), rfl, rfl,
        by simp [hpos], by simp [hpos]⟩
    · subst hs2
      have hnot : ¬ 0 < requestedTotal (matchingAssignments s.nextId data) :=
        not_lt.mpr hle
      exact ⟨_, requestedTotal (matchingAssignments s.nextId data), rfl, rfl,
        by simp [newIncident, hnot], by simp [newIncident, hnot]⟩

theorem c6_status_after_allocation_witness :
    reportIncident (stOneDept (fdCoord 1 9)) (mkRequest 1) (some (mkAlloc 1 1))
      = .ok (stRes (fdCoord 1 8) (mkIncident 1 .inProcess 1 1),
             resResp 1 (mkAlloc 1 1)) ∧
    (∃ inc total,
      (stRes (fdCoord 1 8) (mkIncident 1 .inProcess 1 1)).incidents
        = (stOneDept (fdCoord 1 9)).incidents ++ [inc] ∧
      total = (match some (mkAlloc 1 1) with
               | none => (0 : Int)
               | some data => requestedTotal (matchingAssignments
                   (stOneDept (fdCoord 1 9)).nextId data)) ∧
      inc.status = (if 0 < total then Status.inProcess else Status.open_) ∧
      inc.dispatched_responders = (if 0 < total then total else 0)) := by
  have hrep : reportIncident (stOneDept (fdCoord 1 9)) (mkRequest 1)
      (some (mkAlloc 1 1))
      = .ok (stRes (fdCoord 1 8) (mkIncident 1 .inProcess 1 1),
             resResp 1 (mkAlloc 1 1)) := rfl
  exact ⟨hrep, c6_status_after_allocation hrep⟩

/-- C8 (amended): a report request is rejected before anything is written
exactly when the type field is missing or empty, or latitude or longitude
is missing or non-numeric; negative severity scores and out-of-range
coordinates pass validation and the incident is created carrying them. -/
theorem c8_validation_is_syntactic_only (s : St) (req : ReportRequest)
    (alloc : Option AllocData) :
    (∃ e, reportIncident s req alloc = .error e) ↔
      (typeMissing req.type = true ∨ req.latitude.join = none ∨
        req.longitude.join = none) := by
  unfold reportIncident
  by_cases htm : typeMissing req.type = true
  · simp [htm]
  · have htm2 : typeMissing req.type = false := by
      revert htm
      cases typeMissing req.type <;> simp
    rcases hlat : req.latitude with _ | latI
    · simp [htm2]
    rcases hlon : req.longitude with _ | lonI
    · simp [htm2]
    rcases latI with _ | lat
    · rcases lonI with _ | lon
      · refine iff_of_true ?_ (by simp [Option.join])
        rw [if_neg (by simp [htm2])]
        exact ⟨_, rfl⟩
      · refine iff_of_true ?_ (by simp [Option.join])
        rw [if_neg (by simp [htm2])]
        exact ⟨_, rfl⟩
    rcases lonI with _ | lon
    · refine iff_of_true ?_ (by simp [Option.join])
      rw [if_neg (by simp [htm2])]
      exact ⟨_, rfl⟩
    refine iff_of_false ?_ (by simp [htm2, Option.join])
    rintro ⟨e, he⟩
    rw [if_neg (by simp [htm2])] at he
    simp only [Option.getD_some] at he
    cases alloc with
    | none => simp at he
    | some data =>
        simp only at he
        split at he <;> simp at he

theorem c8_counterexample :
    reqC8.severity_raw = some (some (-3)) ∧
    reqC8.latitude = some (some 200) ∧
    reportIncident (stOneDept (fdCoord 1 4)) reqC8 none
      = .ok ({ depts := [fdCoord 1 4], incidents := [incC8]
               nextId := 2, clock := 1 },
             { incident_id := 1, saved_files := [], severity_score := -3
               resource_allocation := none
               resource_allocation_error := some allocFailedMsg }) ∧
    incC8.severity_score = -3 ∧ incC8.latitude = 200 :=
  ⟨rfl, rfl, rfl, rfl, rfl⟩

end IncidentPlatform
